import Mathlib

/-!
Verification of the Archipelago client core of apdoom
(`src/archipelago/apdoom.cpp`), shallowly embedded in Lean 4.

C `int` fields are modelled as `Int`, C arrays as Lean lists of the
allocated length, and the global mutable state (`ap_state` and friends) as
explicit state records threaded through the operations.  External callbacks
(`give_item_callback`, `victory_callback`) are modelled as output traces
appended to the state.
-/

/-- `AP_CHECK_MAX` from apdoom_pwad.cpp (line 709). -/
def AP_CHECK_MAX : Nat := 128

/-- `ap_level_state_t` (apdoom_pwad.cpp lines 736-748).  `keys` has length 3
and `checks` length `AP_CHECK_MAX` in well-formed states. -/
structure LevelState where
  completed : Int
  keys : List Int
  check_count : Nat
  has_map : Int
  unlocked : Int
  checks : List Int
  special : Int
  flipped : Int
  music : Int
deriving Repr, DecidableEq

/-- The all-zero level state produced by `memset` in `apdoom_init`
(apdoom.cpp line 1007), before the `checks` array is filled with -1. -/
def zeroLevel : LevelState :=
  { completed := 0, keys := [0, 0, 0], check_count := 0, has_map := 0,
    unlocked := 0, checks := List.replicate AP_CHECK_MAX 0, special := 0,
    flipped := 0, music := 0 }

instance : Inhabited LevelState := ⟨zeroLevel⟩

/-- `is_loc_checked` (apdoom.cpp lines 1323-1331): scan the first
`check_count` entries of the `checks` array for `index`. -/
def is_loc_checked (s : LevelState) (index : Int) : Bool :=
  (List.range s.check_count).any fun i => s.checks.getD i 0 == index

/-- The recording step of `f_locrecv` (apdoom.cpp lines 1903-1909), acting on
the level state that `find_location` resolved the location id to:
if already checked, return; if the index is negative, return; otherwise
write `index` at position `check_count` of the `checks` array and
increment `check_count`. -/
def f_locrecv (s : LevelState) (index : Int) : LevelState :=
  if is_loc_checked s index then s
  else if index < 0 then s
  else { s with checks := s.checks.set s.check_count index,
                check_count := s.check_count + 1 }

theorem getD_set_self (l : List Int) (n : Nat) (a : Int) (h : n < l.length) :
    (l.set n a).getD n 0 = a := by
  simp [List.getD, List.getElem?_set_eq_of_lt a h]

theorem is_loc_checked_after_append (s : LevelState) (i : Int)
    (h : s.check_count < s.checks.length) :
    is_loc_checked
      { s with checks := s.checks.set s.check_count i,
               check_count := s.check_count + 1 } i = true := by
  unfold is_loc_checked
  simp only [List.any_eq_true]
  refine ⟨s.check_count, ?_, ?_⟩
  · simp [List.mem_range]
  · simp [List.getD_eq_getElem?_getD, List.getElem?_set_eq_of_lt i h]

/-- C1: the location-check recording operation is idempotent: a second call
with the same arguments is a no-op; an already-recorded index is a no-op;
a fresh non-negative index is appended to the checked list and the counter
is incremented.  The hypothesis keeps the checked list within its
`AP_CHECK_MAX`-sized array, as guaranteed by the bounded catalog. -/
theorem C1_checkLocation_idempotent (s : LevelState) (i : Int)
    (h : s.check_count < s.checks.length) :
    f_locrecv (f_locrecv s i) i = f_locrecv s i ∧
    (is_loc_checked s i = true → f_locrecv s i = s) ∧
    (is_loc_checked s i = false → 0 ≤ i →
      f_locrecv s i = { s with checks := s.checks.set s.check_count i,
                               check_count := s.check_count + 1 }) := by
  refine ⟨?_, ?_, ?_⟩
  · by_cases hch : is_loc_checked s i
    · simp [f_locrecv, hch]
    · by_cases hneg : i < 0
      · simp [f_locrecv, hch, hneg]
      · have h1 : f_locrecv s i =
            { s with checks := s.checks.set s.check_count i,
                     check_count := s.check_count + 1 } := by
          simp [f_locrecv, hch, hneg]
        rw [h1]
        have h2 := is_loc_checked_after_append s i h
        simp [f_locrecv, h2]
  · intro hch; simp [f_locrecv, hch]
  · intro hch hpos
    have hneg : ¬ i < 0 := not_lt.mpr hpos
    simp [f_locrecv, hch, hneg]

/-- Concrete instantiation of `C1_checkLocation_idempotent`. -/
theorem C1_checkLocation_idempotent_witness :
    zeroLevel.check_count < zeroLevel.checks.length ∧
    (f_locrecv (f_locrecv zeroLevel 7) 7 = f_locrecv zeroLevel 7 ∧
     (is_loc_checked zeroLevel 7 = true → f_locrecv zeroLevel 7 = zeroLevel) ∧
     (is_loc_checked zeroLevel 7 = false → 0 ≤ (7 : Int) →
       f_locrecv zeroLevel 7 =
         { zeroLevel with
             checks := zeroLevel.checks.set zeroLevel.check_count 7,
             check_count := zeroLevel.check_count + 1 })) :=
  ⟨by simp [zeroLevel, AP_CHECK_MAX],
   C1_checkLocation_idempotent zeroLevel 7 (by simp [zeroLevel, AP_CHECK_MAX])⟩

/-- `ap_item_t` (apdoom_pwad.cpp lines 850-855): what an Archipelago item id
maps to. -/
structure ApItem where
  doom_type : Int
  ep : Int
  map : Int
deriving Repr, DecidableEq

/-- The static configuration built at startup: the counts fixed by
`apdoom_init` (apdoom.cpp lines 974-995), the preloaded item table, and the
game-specific lookup tables (`get_keys_map`, `get_weapons_map`,
`get_map_doom_type`, `get_sprites`). -/
structure ApConfig where
  max_map_count : Nat
  map_counts : List Nat
  ammo_count : Nat
  weapon_count : Nat
  powerup_count : Nat
  inventory_count : Nat
  item_type_table : List (Int × ApItem)
  keys_map : List (Int × Nat)
  weapons_map : List (Int × Nat)
  map_doom_type : Int
  sprites : List (Int × String)
deriving Repr, DecidableEq

/-- `ap_player_state_t` (apdoom_pwad.cpp lines 758-774). -/
structure PlayerState where
  health : Int
  armor_points : Int
  armor_type : Int
  ready_weapon : Int
  kill_count : Int
  item_count : Int
  secret_count : Int
  powers : List Int
  weapon_owned : List Int
  ammo : List Int
  max_ammo : List Int
  capacity_upgrades : List Int
  inventory : List (Int × Int)
deriving Repr, DecidableEq

/-- The mutable session state: `ap_state` (apdoom_pwad.cpp lines 777-797)
together with the file-scope globals `ap_item_queue`,
`ap_progressive_locations` and `ap_notification_icons` (apdoom.cpp lines
187-193).  `give_trace` records the `give_item_callback` invocations and
`ap_notification_icons` the sprite names of created icons (the float
animation fields play no role in the verified claims). -/
structure GameState where
  level_states : List LevelState
  player : PlayerState
  ep : Int
  map : Int
  episodes : List Int
  victory : Int
  max_ammo_start : List Int
  max_ammo_add : List Int
  ap_item_queue : List Int
  progressive_locations : List Int
  ap_notification_icons : List String
  give_trace : List (Int × Int × Int)
deriving Repr, DecidableEq

/-- `recalc_max_ammo` (apdoom.cpp lines 946-955): for each ammo slot,
`max_ammo[i] = start[i] + add[i] * capacity_upgrades[i]`, clamped to 999. -/
def recalc_max_ammo (c : ApConfig) (s : GameState) : GameState :=
  { s with player := { s.player with max_ammo :=
      ((List.range c.ammo_count).map (fun i =>
        let recalc_max := s.max_ammo_start.getD i 0
          + s.max_ammo_add.getD i 0 * s.player.capacity_upgrades.getD i 0
        if recalc_max > 999 then 999 else recalc_max)) } }

/-- A capacity-upgrade event as delivered to `f_itemrecv`: the backpack
item (`doom_type == 8`) or a single-ammo capacity upgrade
(`doom_type` 65001-65006, carrying the value `doom_type - 65001`). -/
inductive CapacityEvent where
  | backpack
  | singleAmmo (ammo_num : Nat)
deriving Repr, DecidableEq

/-- The effect of one capacity-upgrade event, as in `f_itemrecv`
(apdoom.cpp lines 1808-1823): increment the upgrade counters and
immediately recompute the derived max ammo. -/
def apply_capacity_event (c : ApConfig) (s : GameState) : CapacityEvent → GameState
  | .backpack =>
      recalc_max_ammo c { s with player :=
        { s.player with capacity_upgrades :=
            (s.player.capacity_upgrades.map (· + 1)) } }
  | .singleAmmo n =>
      recalc_max_ammo c { s with player :=
        { s.player with capacity_upgrades :=
            (if n < c.ammo_count then
              s.player.capacity_upgrades.set n
                (s.player.capacity_upgrades.getD n 0 + 1)
            else s.player.capacity_upgrades) } }

/-- The spec's max-ammo invariant: for every ammo slot, the derived max
ammo equals `min 999 (base + increment * upgrades)`. -/
def max_ammo_invariant (c : ApConfig) (s : GameState) : Bool :=
  (List.range c.ammo_count).all fun i =>
    s.player.max_ammo.getD i 0 ==
      min 999 (s.max_ammo_start.getD i 0
        + s.max_ammo_add.getD i 0 * s.player.capacity_upgrades.getD i 0)

theorem range_map_getD (n : Nat) (f : Nat → Int) (j : Nat) (hj : j < n) :
    ((List.range n).map f).getD j 0 = f j := by
  rw [List.getD_eq_getElem?_getD]
  rw [List.getElem?_map]
  simp [List.getElem?_range hj]

theorem recalc_establishes_invariant (c : ApConfig) (s : GameState) :
    max_ammo_invariant c (recalc_max_ammo c s) = true := by
  unfold max_ammo_invariant recalc_max_ammo
  simp only [List.all_eq_true]
  intro i hi
  rw [List.mem_range] at hi
  rw [range_map_getD c.ammo_count _ i hi]
  have : ∀ x : Int, (if x > 999 then 999 else x) = min 999 x := by
    intro x
    by_cases hx : x > 999
    · simp [hx, min_eq_left (le_of_lt hx)]
    · simp [hx, min_eq_right (not_lt.mp hx)]
  simp [this]

theorem capacity_event_shape (c : ApConfig) (s : GameState) (e : CapacityEvent) :
    ∃ s', apply_capacity_event c s e = recalc_max_ammo c s' := by
  cases e <;> exact ⟨_, rfl⟩

theorem foldl_capacity_invariant (c : ApConfig) (events : List CapacityEvent) :
    ∀ s : GameState,
      max_ammo_invariant c
        (events.foldl (apply_capacity_event c) (recalc_max_ammo c s)) = true := by
  induction events with
  | nil => intro s; exact recalc_establishes_invariant c s
  | cons e rest ih =>
      intro s
      rw [List.foldl_cons]
      obtain ⟨s', hs'⟩ := capacity_event_shape c (recalc_max_ammo c s) e
      rw [hs']
      exact ih s'

/-- C2: starting from a state whose max ammo has just been recomputed (as
`apdoom_init` does before any event arrives), after any sequence of
capacity-upgrade events every ammo slot's derived max ammo equals
`min 999 (base + increment * upgrades)`: it is a pure function of the
configured base, the configured increment and the upgrade count. -/
theorem C2_max_ammo_invariant (c : ApConfig) (s : GameState)
    (events : List CapacityEvent) :
    max_ammo_invariant c
      (events.foldl (apply_capacity_event c) (recalc_max_ammo c s)) = true :=
  foldl_capacity_invariant c events s

/-- `ap_game_t` (apdoom.cpp lines 167-172). -/
inductive GameKind where
  | doom
  | doom2
  | heretic
deriving Repr, DecidableEq

/-- The data `apdoom_check_victory` (apdoom.cpp lines 2206-2237) reads
besides the victory flag itself: the goal setting, the base game, the
enabled-episode flags, the per-level completion flags (as the function
`completed ep map`, standing for
`ap_get_level_state({ep,map})->completed`), and the per-episode map
counts.  All of these may change between calls; only `apdoom_check_victory`
writes the victory flag. -/
structure VictoryEnv where
  goal : Int
  base_game : GameKind
  episodes : List Int
  completed : Nat → Nat → Int
  map_counts : List Nat

/-- The success condition checked by `apdoom_check_victory`: with
`goal == 1` on doom or heretic, the eighth map (index 7) of every enabled
episode must be completed; otherwise every map of every enabled episode
must be completed. -/
def victory_condition (e : VictoryEnv) : Bool :=
  if e.goal == 1 ∧ (e.base_game = GameKind.doom ∨ e.base_game = GameKind.heretic) then
    (List.range e.episodes.length).all fun ep =>
      e.episodes.getD ep 0 == 0 || !(e.completed ep 7 == 0)
  else
    (List.range e.episodes.length).all fun ep =>
      e.episodes.getD ep 0 == 0 ||
        (List.range (e.map_counts.getD ep 0)).all fun m => !(e.completed ep m == 0)

/-- `apdoom_check_victory` (apdoom.cpp lines 2206-2237): if the victory
flag is already set, return immediately; if the victory condition fails,
return; otherwise set the flag to 1 and fire `AP_StoryComplete` plus the
`victory_callback` (the returned Bool). -/
def apdoom_check_victory (victory : Int) (e : VictoryEnv) : Int × Bool :=
  if victory != 0 then (victory, false)
  else if victory_condition e then (1, true)
  else (victory, false)

/-- A sequence of `apdoom_check_victory` calls, the environment free to
change between calls; returns the final victory flag and how many times
the victory callback fired. -/
def run_check_victory (victory : Int) : List VictoryEnv → Int × Nat
  | [] => (victory, 0)
  | e :: es =>
      let r := apdoom_check_victory victory e
      let rest := run_check_victory r.1 es
      (rest.1, (if r.2 then 1 else 0) + rest.2)

theorem run_check_victory_latched (envs : List VictoryEnv) (v : Int)
    (hv : v ≠ 0) : run_check_victory v envs = (v, 0) := by
  induction envs with
  | nil => rfl
  | cons e es ih =>
      have hne : (v != 0) = true := by simpa using hv
      simp [run_check_victory, apdoom_check_victory, hne, ih]

theorem run_check_victory_fires_at_most_once (envs : List VictoryEnv) :
    ∀ v : Int, (run_check_victory v envs).2 ≤ 1 := by
  induction envs with
  | nil => intro v; simp [run_check_victory]
  | cons e es ih =>
      intro v
      by_cases hv : v = 0
      · subst hv
        by_cases hc : victory_condition e
        · have h1 : run_check_victory (1 : Int) es = (1, 0) :=
            run_check_victory_latched es 1 (by norm_num)
          simp [run_check_victory, apdoom_check_victory, hc, h1]
        · simpa [run_check_victory, apdoom_check_victory, hc] using ih 0
      · rw [run_check_victory_latched (e :: es) v hv]; simp

/-- C3: across any sequence of `apdoom_check_victory` calls (with the
completion state free to vary between calls), a set victory flag is never
cleared — once non-zero it is latched and re-evaluation stops — and the
victory callback (with the `AP_StoryComplete` signal it accompanies) fires
at most once in total. -/
theorem C3_victory_latch (v : Int) (envs : List VictoryEnv) :
    (v ≠ 0 → run_check_victory v envs = (v, 0)) ∧
    (run_check_victory v envs).2 ≤ 1 := by
  exact ⟨run_check_victory_latched envs v, run_check_victory_fires_at_most_once envs v⟩

/-- Concrete instantiation of `C3_victory_latch`: one call on an
already-victorious state changes nothing and fires nothing; a run from a
cleared flag fires at most once. -/
theorem C3_victory_latch_witness :
    (run_check_victory 1
      [{ goal := 0, base_game := GameKind.doom, episodes := [1],
         completed := fun _ _ => 1, map_counts := [1] }] = (1, 0)) ∧
    (run_check_victory 0
      [{ goal := 0, base_game := GameKind.doom, episodes := [1],
         completed := fun _ _ => 1, map_counts := [1] },
       { goal := 0, base_game := GameKind.doom, episodes := [1],
         completed := fun _ _ => 1, map_counts := [1] }]).2 ≤ 1 :=
  ⟨(C3_victory_latch 1 _).1 (by norm_num), (C3_victory_latch 0 _).2⟩

/-- `ap_get_level_state` (apdoom.cpp lines 862-865) indexes the flat
`level_states` array at `ep * max_map_count + map`; this helper applies an
update to that slot.  Items without an associated level (`item.ep == -1`)
make the C code compute an out-of-range pointer it never dereferences;
the bounds guard makes the flat lookup total. -/
def modifyLevel (c : ApConfig) (ls : List LevelState) (ep map : Int)
    (f : LevelState → LevelState) : List LevelState :=
  let n : Int := ep * (c.max_map_count : Int) + map
  if 0 ≤ n ∧ n.toNat < ls.length then
    ls.set n.toNat (f (ls.getD n.toNat zeroLevel))
  else ls

/-- The level-state writes of `f_itemrecv` (apdoom.cpp lines 1825-1847):
key (via `get_keys_map`), automap, level unlock (`doom_type == -1`) and
level completion (`doom_type == -2`).  All four branches write fields of
the same `level_state` record, so they are merged into one update. -/
def item_level_update (c : ApConfig) (dt : Int) (L : LevelState) : LevelState :=
  let L1 := match c.keys_map.lookup dt with
            | some k => { L with keys := L.keys.set k 1 }
            | none => L
  let L2 := if dt == c.map_doom_type then { L1 with has_map := 1 } else L1
  let L3 := if dt == (-1 : Int) then { L2 with unlocked := 1 } else L2
  if dt == (-2 : Int) then { L3 with completed := 1 } else L3

/-- The session-state mutations of `f_itemrecv` (apdoom.cpp lines
1805-1849), applied as soon as the item is received: backpack
(`doom_type == 8`), single-ammo capacity upgrade (65001-65006), key,
weapon (via `get_weapons_map`), automap, level unlock and level
completion.  The weapon write touches only player state and commutes with
the merged level-state update. -/
def apply_item_state_effects (c : ApConfig) (s : GameState) (item : ApItem) :
    GameState :=
  let s1 := if item.doom_type == 8 then
      recalc_max_ammo c { s with player := { s.player with capacity_upgrades :=
        (s.player.capacity_upgrades.map (· + 1)) } }
    else s
  let s2 := if 65001 ≤ item.doom_type ∧ item.doom_type ≤ 65006 then
      recalc_max_ammo c { s1 with player := { s1.player with capacity_upgrades :=
        (if (item.doom_type - 65001).toNat < c.ammo_count then
           s1.player.capacity_upgrades.set (item.doom_type - 65001).toNat
             (s1.player.capacity_upgrades.getD (item.doom_type - 65001).toNat 0 + 1)
         else s1.player.capacity_upgrades) } }
    else s1
  let s3 := { s2 with player := { s2.player with weapon_owned :=
      (match c.weapons_map.lookup item.doom_type with
       | some w => s2.player.weapon_owned.set w 1
       | none => s2.player.weapon_owned) } }
  { s3 with level_states := (modifyLevel c s3.level_states (item.ep - 1)
      (item.map - 1) (item_level_update c item.doom_type)) }

/-- `process_received_item` (apdoom.cpp lines 1751-1795): the part of item
receipt that requires being in game — call `give_item_callback` (recorded
on `give_trace`) and, when the item's doom type has a sprite, create a
notification icon. -/
def process_received_item (c : ApConfig) (s : GameState) (item_id : Int) :
    GameState :=
  match c.item_type_table.lookup item_id with
  | none => s
  | some item =>
      let s1 := { s with give_trace :=
        s.give_trace ++ [(item.doom_type, item.ep, item.map)] }
      match c.sprites.lookup item.doom_type with
      | some spr => { s1 with ap_notification_icons :=
          s1.ap_notification_icons ++ [spr] }
      | none => s1

/-- `f_itemrecv` (apdoom.cpp lines 1797-1857): drop unknown item ids,
apply the session-state mutations immediately, then — only when
`notify_player` — either enqueue the raw id (not in game) or run
`process_received_item` (in game). -/
def f_itemrecv (c : ApConfig) (is_in_game : Bool) (s : GameState)
    (item_id : Int) (notify_player : Bool) : GameState :=
  match c.item_type_table.lookup item_id with
  | none => s
  | some item =>
      let s' := apply_item_state_effects c s item
      if !notify_player then s'
      else if !is_in_game then
        { s' with ap_item_queue := s'.ap_item_queue ++ [item_id] }
      else process_received_item c s' item_id

/-- The dequeue loop of `apdoom_update` (apdoom.cpp lines 2484-2489):
pop the front of the queue and `process_received_item` it, until empty. -/
def run_item_queue (c : ApConfig) : GameState → List Int → GameState
  | s, [] => s
  | s, item_id :: rest =>
      run_item_queue c
        (process_received_item c { s with ap_item_queue := rest } item_id) rest

/-- The item portion of `apdoom_update` (apdoom.cpp lines 2481-2490):
when in game, drain the pending item queue. -/
def apdoom_update_items (c : ApConfig) (is_in_game : Bool) (s : GameState) :
    GameState :=
  if is_in_game then run_item_queue c s s.ap_item_queue else s

/-- What `process_received_item` hands to `give_item_callback` for a given
item id, if anything. -/
def give_of (c : ApConfig) (item_id : Int) : Option (Int × Int × Int) :=
  (c.item_type_table.lookup item_id).map fun it => (it.doom_type, it.ep, it.map)

theorem apply_item_state_effects_frame (c : ApConfig) (s : GameState)
    (item : ApItem) :
    (apply_item_state_effects c s item).ap_item_queue = s.ap_item_queue ∧
    (apply_item_state_effects c s item).give_trace = s.give_trace ∧
    (apply_item_state_effects c s item).ap_notification_icons
      = s.ap_notification_icons := by
  unfold apply_item_state_effects modifyLevel recalc_max_ammo
  repeat' split
  all_goals simp

theorem process_received_item_frame (c : ApConfig) (s : GameState) (id : Int) :
    (process_received_item c s id).ap_item_queue = s.ap_item_queue ∧
    (process_received_item c s id).give_trace
      = s.give_trace ++ (give_of c id).toList ∧
    (process_received_item c s id).ap_notification_icons
      = s.ap_notification_icons ++
          ((c.item_type_table.lookup id).bind
            (fun it => c.sprites.lookup it.doom_type)).toList := by
  unfold process_received_item give_of
  cases h : c.item_type_table.lookup id with
  | none => simp
  | some item =>
      cases hs : c.sprites.lookup item.doom_type with
      | none => simp [hs]
      | some spr => simp [hs]

theorem run_item_queue_spec (c : ApConfig) (l : List Int) :
    ∀ s : GameState,
      (run_item_queue c s l).give_trace
        = s.give_trace ++ l.filterMap (give_of c) ∧
      (run_item_queue c s l).ap_item_queue
        = (if l.isEmpty then s.ap_item_queue else []) := by
  induction l with
  | nil => intro s; simp [run_item_queue]
  | cons x rest ih =>
      intro s
      rw [run_item_queue]
      obtain ⟨ht, hq⟩ :=
        ih (process_received_item c { s with ap_item_queue := rest } x)
      obtain ⟨hpq, hpt, _⟩ :=
        process_received_item_frame c { s with ap_item_queue := rest } x
      constructor
      · rw [ht, hpt]
        simp [List.filterMap_cons]
        cases give_of c x <;> simp
      · rw [hq, hpq]
        cases rest with
        | nil => simp
        | cons y ys => simp

/-- A batch of item-received events handled while the player is not in
active gameplay (`ap_is_in_game == 0`), with `notify_player` set. -/
def receive_while_out (c : ApConfig) (s : GameState) (ids : List Int) :
    GameState :=
  ids.foldl (fun s i => f_itemrecv c false s i true) s

theorem f_itemrecv_out_frame (c : ApConfig) (s : GameState) (id : Int) :
    (f_itemrecv c false s id true).ap_item_queue
      = s.ap_item_queue ++
          (if (c.item_type_table.lookup id).isSome then [id] else []) ∧
    (f_itemrecv c false s id true).give_trace = s.give_trace ∧
    (f_itemrecv c false s id true).ap_notification_icons
      = s.ap_notification_icons := by
  unfold f_itemrecv
  cases h : c.item_type_table.lookup id with
  | none => simp
  | some item =>
      obtain ⟨hq, ht, hi⟩ := apply_item_state_effects_frame c s item
      simp [hq, ht, hi]

theorem receive_while_out_frame (c : ApConfig) (ids : List Int) :
    ∀ s : GameState,
      (receive_while_out c s ids).ap_item_queue
        = s.ap_item_queue ++
            ids.filter (fun i => (c.item_type_table.lookup i).isSome) ∧
      (receive_while_out c s ids).give_trace = s.give_trace ∧
      (receive_while_out c s ids).ap_notification_icons
        = s.ap_notification_icons := by
  induction ids with
  | nil => intro s; simp [receive_while_out]
  | cons x xs ih =>
      intro s
      have hstep : receive_while_out c s (x :: xs)
          = receive_while_out c (f_itemrecv c false s x true) xs := by
        simp [receive_while_out]
      rw [hstep]
      obtain ⟨hq, ht, hi⟩ := ih (f_itemrecv c false s x true)
      obtain ⟨hq1, ht1, hi1⟩ := f_itemrecv_out_frame c s x
      refine ⟨?_, by rw [ht, ht1], by rw [hi, hi1]⟩
      rw [hq, hq1]
      by_cases hx : (c.item_type_table.lookup x).isSome
      · simp [hx, List.filter_cons]
      · simp [hx, List.filter_cons]

/-- C4: items received while not in active gameplay are queued in arrival
order (restricted to ids known to the item table, as unknown ids are
dropped), and the next `apdoom_update` in active gameplay drains the
queue completely, invoking the give-item callback exactly once per queued
entry, in exactly the queued (arrival) order. -/
theorem C4_fifo_drain (c : ApConfig) (s0 : GameState) (ids : List Int) :
    (receive_while_out c { s0 with ap_item_queue := [] } ids).ap_item_queue
      = ids.filter (fun i => (c.item_type_table.lookup i).isSome) ∧
    (receive_while_out c { s0 with ap_item_queue := [] } ids).give_trace
      = s0.give_trace ∧
    (apdoom_update_items c true
        (receive_while_out c { s0 with ap_item_queue := [] } ids)).give_trace
      = s0.give_trace ++
          ((receive_while_out c { s0 with ap_item_queue := [] }
              ids).ap_item_queue).filterMap (give_of c) ∧
    (apdoom_update_items c true
        (receive_while_out c { s0 with ap_item_queue := [] } ids)).ap_item_queue
      = [] := by
  obtain ⟨hq, ht, _⟩ :=
    receive_while_out_frame c ids { s0 with ap_item_queue := [] }
  have hq' : (receive_while_out c { s0 with ap_item_queue := [] }
      ids).ap_item_queue
      = ids.filter (fun i => (c.item_type_table.lookup i).isSome) := by
    simpa using hq
  have hupd : apdoom_update_items c true
      (receive_while_out c { s0 with ap_item_queue := [] } ids)
      = run_item_queue c
          (receive_while_out c { s0 with ap_item_queue := [] } ids)
          ((receive_while_out c { s0 with ap_item_queue := [] }
              ids).ap_item_queue) := by
    simp [apdoom_update_items]
  refine ⟨hq', by simpa using ht, ?_, ?_⟩
  · obtain ⟨hrt, _⟩ := run_item_queue_spec c
      ((receive_while_out c { s0 with ap_item_queue := [] } ids).ap_item_queue)
      (receive_while_out c { s0 with ap_item_queue := [] } ids)
    rw [hupd, hrt, ht]
  · obtain ⟨_, hrq⟩ := run_item_queue_spec c
      ((receive_while_out c { s0 with ap_item_queue := [] } ids).ap_item_queue)
      (receive_while_out c { s0 with ap_item_queue := [] } ids)
    rw [hupd, hrq]
    by_cases he : (receive_while_out c { s0 with ap_item_queue := [] }
        ids).ap_item_queue.isEmpty
    · rw [if_pos he]
      exact List.isEmpty_iff.mp he
    · rw [if_neg he]

/-- A two-level test catalog with one item: id 400001 maps to the
"level 2 unlock" item (`doom_type == -1`, episode 1, map 2), whose doom
type has a notification sprite. -/
def cexConfig : ApConfig :=
  { max_map_count := 2, map_counts := [2], ammo_count := 1, weapon_count := 2,
    powerup_count := 1, inventory_count := 0,
    item_type_table := [(400001, { doom_type := -1, ep := 1, map := 2 })],
    keys_map := [], weapons_map := [], map_doom_type := 2026,
    sprites := [(-1, "SKULZ")] }

/-- A fresh session for `cexConfig`, with episode 1 enabled and both
levels in their initialized state. -/
def cexState : GameState :=
  { level_states := [zeroLevel, zeroLevel],
    player :=
      { health := 100, armor_points := 0, armor_type := 0,
        ready_weapon := 1, kill_count := 0, item_count := 0, secret_count := 0,
        powers := [0], weapon_owned := [1, 1], ammo := [50], max_ammo := [200],
        capacity_upgrades := [0], inventory := [] },
    ep := 0, map := 0, episodes := [1], victory := 0,
    max_ammo_start := [200], max_ammo_add := [200],
    ap_item_queue := [], progressive_locations := [],
    ap_notification_icons := [], give_trace := [] }

/-- C5 counterexample: receiving the "level 2 unlock" item while NOT in
active gameplay already sets level 2's `unlocked` flag — before any
transition into gameplay — while the raw id is queued and no notification
icon exists yet.  This contradicts the claim that the handler returns
"without applying the item's effects" and that the unlocked flag becomes
true only after the gameplay transition. -/
theorem C5_deferred_effects_counterexample :
    ((f_itemrecv cexConfig false cexState 400001 true).level_states.getD 1
        zeroLevel).unlocked = 1 ∧
    (f_itemrecv cexConfig false cexState 400001 true).ap_item_queue
      = [400001] ∧
    (f_itemrecv cexConfig false cexState 400001 true).ap_notification_icons
      = [] := by
  refine ⟨?_, ?_, ?_⟩ <;> rfl

/-- C5 amended: receiving a known item while not in active gameplay
appends the raw id to the pending queue and applies the session-state
mutations immediately; only the in-game delivery — the give-item callback
and the notification icon — is deferred, occurring exactly at the next
`apdoom_update` in active gameplay. -/
theorem C5_deferral_amended (c : ApConfig) (s : GameState) (id : Int)
    (item : ApItem) (spr : String)
    (hq0 : s.ap_item_queue = [])
    (hit : c.item_type_table.lookup id = some item)
    (hspr : c.sprites.lookup item.doom_type = some spr) :
    f_itemrecv c false s id true
      = { apply_item_state_effects c s item with ap_item_queue := [id] } ∧
    (f_itemrecv c false s id true).ap_notification_icons
      = s.ap_notification_icons ∧
    (f_itemrecv c false s id true).give_trace = s.give_trace ∧
    (apdoom_update_items c true (f_itemrecv c false s id true)).give_trace
      = s.give_trace ++ [(item.doom_type, item.ep, item.map)] ∧
    (apdoom_update_items c true
        (f_itemrecv c false s id true)).ap_notification_icons
      = s.ap_notification_icons ++ [spr] ∧
    (apdoom_update_items c true (f_itemrecv c false s id true)).ap_item_queue
      = [] := by
  obtain ⟨hq, ht, hi⟩ := apply_item_state_effects_frame c s item
  have hrecv : f_itemrecv c false s id true
      = { apply_item_state_effects c s item with ap_item_queue := [id] } := by
    simp [f_itemrecv, hit, hq, hq0]
  have hdrain : apdoom_update_items c true (f_itemrecv c false s id true)
      = process_received_item c
          { apply_item_state_effects c s item with
              ap_item_queue := ([] : List Int) } id := by
    rw [hrecv]
    simp only [apdoom_update_items, if_true]
    rfl
  obtain ⟨hpq, hpt, hpi⟩ :=
    process_received_item_frame c
      { apply_item_state_effects c s item with
          ap_item_queue := ([] : List Int) } id
  refine ⟨hrecv, ?_, ?_, ?_, ?_, ?_⟩
  · rw [hrecv]; simpa using hi
  · rw [hrecv]; simpa using ht
  · rw [hdrain, hpt]
    have : ({ apply_item_state_effects c s item with
        ap_item_queue := ([] : List Int) } : GameState).give_trace
        = s.give_trace := by simpa using ht
    rw [this]
    simp [give_of, hit]
  · rw [hdrain, hpi]
    have : ({ apply_item_state_effects c s item with
        ap_item_queue := ([] : List Int) } : GameState).ap_notification_icons
        = s.ap_notification_icons := by simpa using hi
    rw [this]
    simp [hit, hspr]
  · rw [hdrain, hpq]

/-- The "level 2 unlock" item of `cexConfig`. -/
def cexItem : ApItem := { doom_type := -1, ep := 1, map := 2 }

/-- Concrete instantiation of `C5_deferral_amended` on `cexConfig`. -/
theorem C5_deferral_amended_witness :
    f_itemrecv cexConfig false cexState 400001 true
      = { apply_item_state_effects cexConfig cexState cexItem with
          ap_item_queue := [400001] } ∧
    (f_itemrecv cexConfig false cexState 400001 true).ap_notification_icons
      = cexState.ap_notification_icons ∧
    (f_itemrecv cexConfig false cexState 400001 true).give_trace
      = cexState.give_trace ∧
    (apdoom_update_items cexConfig true
        (f_itemrecv cexConfig false cexState 400001 true)).give_trace
      = cexState.give_trace ++ [(cexItem.doom_type, cexItem.ep, cexItem.map)] ∧
    (apdoom_update_items cexConfig true
        (f_itemrecv cexConfig false cexState 400001 true)).ap_notification_icons
      = cexState.ap_notification_icons ++ ["SKULZ"] ∧
    (apdoom_update_items cexConfig true
        (f_itemrecv cexConfig false cexState 400001 true)).ap_item_queue
      = [] :=
  C5_deferral_amended cexConfig cexState 400001 cexItem "SKULZ" rfl rfl rfl

theorem getD_set_self' {α : Type} (l : List α) (n : Nat) (a d : α)
    (h : n < l.length) : (l.set n a).getD n d = a := by
  simp [List.getD, List.getElem?_set_eq_of_lt a h]

theorem modifyLevel_idem (c : ApConfig) (ls : List LevelState) (ep mp : Int)
    (f : LevelState → LevelState) (hf : ∀ L, f (f L) = f L) :
    modifyLevel c (modifyLevel c ls ep mp f) ep mp f
      = modifyLevel c ls ep mp f := by
  unfold modifyLevel
  by_cases h : 0 ≤ ep * (c.max_map_count : Int) + mp ∧
      (ep * (c.max_map_count : Int) + mp).toNat < ls.length
  · rw [if_pos h]
    have hlen : (ls.set (ep * (c.max_map_count : Int) + mp).toNat
        (f (ls.getD (ep * (c.max_map_count : Int) + mp).toNat
          zeroLevel))).length = ls.length := by simp
    rw [if_pos ⟨h.1, by rw [hlen]; exact h.2⟩]
    rw [getD_set_self' _ _ _ zeroLevel h.2, hf, List.set_set]
  · rw [if_neg h, if_neg h]

theorem item_level_update_idem (c : ApConfig) (dt : Int) (L : LevelState) :
    item_level_update c dt (item_level_update c dt L)
      = item_level_update c dt L := by
  unfold item_level_update
  cases hk : c.keys_map.lookup dt <;>
    by_cases h1 : dt == c.map_doom_type <;>
      by_cases h2 : dt == (-1 : Int) <;>
        by_cases h3 : dt == (-2 : Int) <;>
          simp [hk, h1, h2, h3, List.set_set]

theorem process_received_item_core (c : ApConfig) (s : GameState) (id : Int) :
    (process_received_item c s id).level_states = s.level_states ∧
    (process_received_item c s id).player = s.player ∧
    (process_received_item c s id).ep = s.ep ∧
    (process_received_item c s id).map = s.map ∧
    (process_received_item c s id).episodes = s.episodes ∧
    (process_received_item c s id).victory = s.victory ∧
    (process_received_item c s id).max_ammo_start = s.max_ammo_start ∧
    (process_received_item c s id).max_ammo_add = s.max_ammo_add ∧
    (process_received_item c s id).progressive_locations
      = s.progressive_locations := by
  unfold process_received_item
  repeat' split
  all_goals simp

theorem apply_item_state_effects_no_capacity (c : ApConfig) (s : GameState)
    (item : ApItem) (h8 : item.doom_type ≠ 8)
    (hcap : ¬ (65001 ≤ item.doom_type ∧ item.doom_type ≤ 65006)) :
    apply_item_state_effects c s item =
      { s with
        player := { s.player with weapon_owned :=
          (match c.weapons_map.lookup item.doom_type with
           | some w => s.player.weapon_owned.set w 1
           | none => s.player.weapon_owned) },
        level_states := (modifyLevel c s.level_states (item.ep - 1)
          (item.map - 1) (item_level_update c item.doom_type)) } := by
  have h8' : (item.doom_type == 8) = false := by simpa using h8
  unfold apply_item_state_effects
  simp [h8', hcap]

/-- A one-level test catalog whose only item, id 350000, is the backpack
(`doom_type == 8`). -/
def dupConfig : ApConfig :=
  { max_map_count := 1, map_counts := [1], ammo_count := 1, weapon_count := 2,
    powerup_count := 1, inventory_count := 0,
    item_type_table := [(350000, { doom_type := 8, ep := -1, map := -1 })],
    keys_map := [], weapons_map := [], map_doom_type := 2026, sprites := [] }

/-- A fresh session for `dupConfig`. -/
def dupState : GameState := { cexState with level_states := [zeroLevel] }

/-- C7 counterexample: delivering the backpack item twice (a duplicate
re-delivery) does NOT leave the session state equal to a single delivery:
the capacity-upgrade counter reaches 2 instead of 1 and the derived max
ammo 600 instead of 400.  Capacity-upgrade items are counted per delivery,
not detected as duplicates. -/
theorem C7_duplicate_backpack_counterexample :
    (f_itemrecv dupConfig true (f_itemrecv dupConfig true dupState 350000 true)
        350000 true).player.capacity_upgrades = [2] ∧
    (f_itemrecv dupConfig true dupState 350000 true).player.capacity_upgrades
      = [1] ∧
    (f_itemrecv dupConfig true (f_itemrecv dupConfig true dupState 350000 true)
        350000 true).player.max_ammo = [600] ∧
    (f_itemrecv dupConfig true dupState 350000 true).player.max_ammo
      = [400] := by
  refine ⟨?_, ?_, ?_, ?_⟩ <;> rfl

/-- C7 amended: for items that are NOT capacity upgrades (neither the
backpack nor a single-ammo upgrade) — keys, weapons, automaps, level
unlocks, level completions — delivering the same item-received event twice
while in active gameplay leaves every session-state field equal to the
state after one delivery, with no error raised; only the notification side
effects (give-item callback trace and notification icons) repeat.
Capacity-upgrade items, by contrast, increment their counters on every
delivery (see the counterexample), and a re-delivery while not in active
gameplay appends a second queue entry. -/
theorem C7_duplicate_amended (c : ApConfig) (s : GameState) (id : Int)
    (item : ApItem)
    (hit : c.item_type_table.lookup id = some item)
    (h8 : item.doom_type ≠ 8)
    (hcap : ¬ (65001 ≤ item.doom_type ∧ item.doom_type ≤ 65006)) :
    (f_itemrecv c true (f_itemrecv c true s id true) id true).level_states
      = (f_itemrecv c true s id true).level_states ∧
    (f_itemrecv c true (f_itemrecv c true s id true) id true).player
      = (f_itemrecv c true s id true).player ∧
    (f_itemrecv c true (f_itemrecv c true s id true) id true).ap_item_queue
      = (f_itemrecv c true s id true).ap_item_queue ∧
    (f_itemrecv c true (f_itemrecv c true s id true) id true).ep
      = (f_itemrecv c true s id true).ep ∧
    (f_itemrecv c true (f_itemrecv c true s id true) id true).map
      = (f_itemrecv c true s id true).map ∧
    (f_itemrecv c true (f_itemrecv c true s id true) id true).episodes
      = (f_itemrecv c true s id true).episodes ∧
    (f_itemrecv c true (f_itemrecv c true s id true) id true).victory
      = (f_itemrecv c true s id true).victory ∧
    (f_itemrecv c true (f_itemrecv c true s id true) id true).max_ammo_start
      = (f_itemrecv c true s id true).max_ammo_start ∧
    (f_itemrecv c true (f_itemrecv c true s id true) id true).max_ammo_add
      = (f_itemrecv c true s id true).max_ammo_add ∧
    (f_itemrecv c true (f_itemrecv c true s id true) id
        true).progressive_locations
      = (f_itemrecv c true s id true).progressive_locations := by
  have hshape : ∀ t : GameState, f_itemrecv c true t id true
      = process_received_item c (apply_item_state_effects c t item) id := by
    intro t; simp [f_itemrecv, hit]
  have heff := fun t => apply_item_state_effects_no_capacity c t item h8 hcap
  have hu := item_level_update_idem c item.doom_type
  -- field-level descriptions of one receive step
  have hls : ∀ t : GameState, (f_itemrecv c true t id true).level_states
      = modifyLevel c t.level_states (item.ep - 1) (item.map - 1)
          (item_level_update c item.doom_type) := by
    intro t
    rw [hshape t, (process_received_item_core c _ id).1, heff t]
  have hpl : ∀ t : GameState, (f_itemrecv c true t id true).player
      = { t.player with weapon_owned :=
          (match c.weapons_map.lookup item.doom_type with
           | some w => t.player.weapon_owned.set w 1
           | none => t.player.weapon_owned) } := by
    intro t
    rw [hshape t, (process_received_item_core c _ id).2.1, heff t]
  have hq : ∀ t : GameState, (f_itemrecv c true t id true).ap_item_queue
      = t.ap_item_queue := by
    intro t
    rw [hshape t, (process_received_item_frame c _ id).1,
      (apply_item_state_effects_frame c t item).1]
  have hep : ∀ t : GameState, (f_itemrecv c true t id true).ep = t.ep := by
    intro t
    rw [hshape t, (process_received_item_core c _ id).2.2.1, heff t]
  have hmap : ∀ t : GameState, (f_itemrecv c true t id true).map = t.map := by
    intro t
    rw [hshape t, (process_received_item_core c _ id).2.2.2.1, heff t]
  have heps : ∀ t : GameState, (f_itemrecv c true t id true).episodes
      = t.episodes := by
    intro t
    rw [hshape t, (process_received_item_core c _ id).2.2.2.2.1, heff t]
  have hvic : ∀ t : GameState, (f_itemrecv c true t id true).victory
      = t.victory := by
    intro t
    rw [hshape t, (process_received_item_core c _ id).2.2.2.2.2.1, heff t]
  have hst : ∀ t : GameState, (f_itemrecv c true t id true).max_ammo_start
      = t.max_ammo_start := by
    intro t
    rw [hshape t, (process_received_item_core c _ id).2.2.2.2.2.2.1, heff t]
  have had : ∀ t : GameState, (f_itemrecv c true t id true).max_ammo_add
      = t.max_ammo_add := by
    intro t
    rw [hshape t, (process_received_item_core c _ id).2.2.2.2.2.2.2.1, heff t]
  have hpr : ∀ t : GameState,
      (f_itemrecv c true t id true).progressive_locations
      = t.progressive_locations := by
    intro t
    rw [hshape t, (process_received_item_core c _ id).2.2.2.2.2.2.2.2, heff t]
  refine ⟨?_, ?_, ?_, ?_, ?_, ?_, ?_, ?_, ?_, ?_⟩
  · rw [hls, hls, modifyLevel_idem c _ _ _ _ hu]
  · rw [hpl, hpl]
    cases hwm : c.weapons_map.lookup item.doom_type <;>
      simp [List.set_set]
  · rw [hq, hq]
  · rw [hep, hep]
  · rw [hmap, hmap]
  · rw [heps, heps]
  · rw [hvic, hvic]
  · rw [hst, hst]
  · rw [had, had]
  · rw [hpr, hpr]

/-- Concrete instantiation of `C7_duplicate_amended` on the "level 2
unlock" item of `cexConfig` (a non-capacity item). -/
theorem C7_duplicate_amended_witness :
    (f_itemrecv cexConfig true (f_itemrecv cexConfig true cexState 400001 true)
        400001 true).level_states
      = (f_itemrecv cexConfig true cexState 400001 true).level_states ∧
    (f_itemrecv cexConfig true (f_itemrecv cexConfig true cexState 400001 true)
        400001 true).player
      = (f_itemrecv cexConfig true cexState 400001 true).player :=
  ⟨(C7_duplicate_amended cexConfig cexState 400001 cexItem rfl (by decide)
      (by decide)).1,
   (C7_duplicate_amended cexConfig cexState 400001 cexItem rfl (by decide)
      (by decide)).2.1⟩

/-- The catalog iteration order of `apdoom_init`'s per-level loops
(episode-major, map-minor, lines 1193-1217): all `(ep, map)` pairs with
`ep < episode_count` and `map < map_count(ep)`. -/
def catalog_levels (c : ApConfig) : List (Nat × Nat) :=
  (List.range c.map_counts.length).flatMap fun ep =>
    (List.range (c.map_counts.getD ep 0)).map fun m => (ep, m)

/-- The levels visited by the music assignment loop (apdoom.cpp lines
1236-1261): levels of enabled episodes, in catalog order. -/
def enabled_levels (c : ApConfig) (episodes : List Int) : List (Nat × Nat) :=
  (catalog_levels c).filter fun p => !(episodes.getD p.1 0 == 0)

/-- The music pool built by `apdoom_init` (lines 1222-1232): the original
music ids (`get_original_music_for_level`, abstracted as `orig`) of every
level whose episode is enabled — or of every level when
`random_music == 2` (global shuffle). -/
def music_pool (c : ApConfig) (episodes : List Int) (mode : Int)
    (orig : Nat → Nat → Int) : List Int :=
  ((catalog_levels c).filter fun p =>
      !(episodes.getD p.1 0 == 0) || mode == 2).map fun p => orig p.1 p.2

/-- The shuffle loop of `apdoom_init` (lines 1240-1246): for each slot
(enabled level) in turn, draw `rand() % pool.size()`, remove that pool
element and assign it.  The `rand()` stream is modelled by `rng` with `k`
the index of the next draw. -/
def shuffle_assign (rng : Nat → Nat) :
    Nat → List (Nat × Nat) → List Int → List Int
  | _, [], _ => []
  | k, _ :: slots, pool =>
      let rnd := rng k % pool.length
      pool.getD rnd 0 :: shuffle_assign rng (k + 1) slots (pool.eraseIdx rnd)

theorem getD_cons_eraseIdx_perm {α : Type} (d : α) :
    ∀ (l : List α) (i : Nat), i < l.length →
      List.Perm (l.getD i d :: l.eraseIdx i) l := by
  intro l
  induction l with
  | nil => intro i hi; simp at hi
  | cons a t ih =>
      intro i hi
      cases i with
      | zero => simp
      | succ n =>
          have hn : n < t.length := by simpa using hi
          have hp := ih n hn
          simp only [List.getD_cons_succ, List.eraseIdx_cons_succ]
          exact List.Perm.trans (List.Perm.swap a (t.getD n d) (t.eraseIdx n))
            (List.Perm.cons a hp)

theorem shuffle_assign_perm (rng : Nat → Nat) :
    ∀ (slots : List (Nat × Nat)) (k : Nat) (pool : List Int),
      slots.length = pool.length →
      List.Perm (shuffle_assign rng k slots pool) pool := by
  intro slots
  induction slots with
  | nil =>
      intro k pool h
      have hp : pool = [] := List.eq_nil_of_length_eq_zero h.symm
      subst hp
      simp [shuffle_assign]
  | cons s rest ih =>
      intro k pool h
      have hpos : 0 < pool.length := by
        rw [← h]; simp
      have hrnd : rng k % pool.length < pool.length := Nat.mod_lt _ hpos
      rw [shuffle_assign]
      have hlen : rest.length = (pool.eraseIdx (rng k % pool.length)).length := by
        rw [List.length_eraseIdx_of_lt hrnd]
        have : rest.length + 1 = pool.length := by simpa using h
        omega
      exact List.Perm.trans
        (List.Perm.cons _ (ih (k + 1) _ hlen))
        (getD_cons_eraseIdx_perm 0 pool _ hrnd)

/-- C8: with music-shuffle mode 1, the assignments drawn for the enabled
levels are a permutation of the pool, which consists exactly of the
enabled levels' original music ids: every pool element is assigned exactly
once and no assignment comes from outside the pool. -/
theorem C8_music_shuffle_bijection (c : ApConfig) (episodes : List Int)
    (orig : Nat → Nat → Int) (rng : Nat → Nat) (k : Nat) :
    List.Perm
      (shuffle_assign rng k (enabled_levels c episodes)
        (music_pool c episodes 1 orig))
      (music_pool c episodes 1 orig) ∧
    music_pool c episodes 1 orig
      = (enabled_levels c episodes).map fun p => orig p.1 p.2 := by
  have hpool : music_pool c episodes 1 orig
      = (enabled_levels c episodes).map fun p => orig p.1 p.2 := by
    unfold music_pool enabled_levels
    have : ((1 : Int) == 2) = false := by decide
    simp [this]
  refine ⟨?_, hpool⟩
  apply shuffle_assign_perm
  rw [hpool]
  simp

/-- `hash_seed` (apdoom.cpp lines 923-932): the djb2 string hash
`h := h * 33 + c` over the bytes of the seed string, in 64-bit unsigned
arithmetic (`unsigned long long`). -/
def hash_seed (str : List Nat) : Nat :=
  str.foldl (fun h ch => (h * 33 + ch) % 2 ^ 64) 5381

/-- The flip derivation of `apdoom_init` (lines 1189-1209): mode 1 flips
every level, mode 2 draws `rand() % 2` once per level in catalog order,
any other mode leaves the `memset` zeroes. -/
def derive_flips (c : ApConfig) (flip_levels : Int) (rng : Nat → Nat) :
    List Nat :=
  if flip_levels == 1 then (catalog_levels c).map fun _ => 1
  else if flip_levels == 2 then
    (List.range (catalog_levels c).length).map fun k => rng k % 2
  else (catalog_levels c).map fun _ => 0

/-- C9: the mode-2 flip derivation is a deterministic function of the seed
string: the generator is seeded only with `hash_seed` of the
save-directory string and one draw is consumed per level in catalog
order, so two runs from equal seed strings (with the same pseudo-random
generator family `prng`) produce identical per-level flip assignments. -/
theorem C9_flip_determinism (prng : Nat → Nat → Nat) (c : ApConfig)
    (seed1 seed2 : List Nat) (h : seed1 = seed2) :
    derive_flips c 2 (prng (hash_seed seed1))
      = derive_flips c 2 (prng (hash_seed seed2)) := by
  rw [h]

/-- Concrete instantiation of `C9_flip_determinism`. -/
theorem C9_flip_determinism_witness :
    derive_flips cexConfig 2 ((fun s k => s + k) (hash_seed [65, 80]))
      = derive_flips cexConfig 2 ((fun s k => s + k) (hash_seed [65, 80])) :=
  C9_flip_determinism (fun s k => s + k) cexConfig [65, 80] [65, 80] rfl

/-- `ap_thing_info_t` (apdoom_pwad.cpp lines 712-718). -/
structure ApThingInfo where
  doom_type : Int
  index : Int
  check_sanity : Int
  unreachable : Int
deriving Repr, DecidableEq

/-- `ap_level_info_t` (apdoom_pwad.cpp lines 721-733). -/
structure ApLevelInfo where
  name : String
  keys : List Int
  use_skull : List Int
  check_count : Int
  thing_count : Int
  thing_infos : List ApThingInfo
  sanity_check_count : Int
  game_episode : Int
  game_map : Int
deriving Repr, DecidableEq

instance : Inhabited ApLevelInfo := ⟨⟨"", [], [], 0, 0, [], 0, 0, 0⟩⟩

/-- `ap_level_index_t` (apdoom_pwad.cpp lines 842-846): zero-based. -/
structure ApLevelIndex where
  ep : Int
  map : Int
deriving Repr, DecidableEq

/-- `ap_get_map_count` (apdoom.cpp lines 844-850): decrement the 1-based
episode number, return -1 when out of range, else that episode's map
count. -/
def ap_get_map_count (tbl : List (List ApLevelInfo)) (ep : Int) : Int :=
  let ep1 := ep - 1
  if ep1 < 0 ∨ (tbl.length : Int) ≤ ep1 then -1
  else ((tbl.getD ep1.toNat []).length : Int)

/-- `ap_get_level_info` (apdoom.cpp lines 853-859): bounds-check both
components of the level index; `nullptr` (`none`) when out of range, else
a pointer to the catalog entry. -/
def ap_get_level_info (tbl : List (List ApLevelInfo)) (idx : ApLevelIndex) :
    Option ApLevelInfo :=
  if idx.ep < 0 ∨ (tbl.length : Int) ≤ idx.ep then none
  else
    let row := tbl.getD idx.ep.toNat []
    if idx.map < 0 ∨ (row.length : Int) ≤ idx.map then none
    else some (row.getD idx.map.toNat default)

/-- C10: the catalog accessors are total: `ap_get_map_count` returns -1
for every 1-based episode number outside the catalog and the episode's
map count inside it; `ap_get_level_info` returns `none` (`nullptr`) for
every out-of-bounds zero-based level index, and the catalog entry for
every in-bounds index. -/
theorem C10_catalog_accessors_total (tbl : List (List ApLevelInfo))
    (ep : Int) (idx : ApLevelIndex) :
    ((ep < 1 ∨ (tbl.length : Int) < ep) → ap_get_map_count tbl ep = -1) ∧
    ((1 ≤ ep ∧ ep ≤ (tbl.length : Int)) →
      ap_get_map_count tbl ep
        = ((tbl.getD (ep - 1).toNat []).length : Int)) ∧
    ((idx.ep < 0 ∨ (tbl.length : Int) ≤ idx.ep ∨ idx.map < 0 ∨
        ((tbl.getD idx.ep.toNat []).length : Int) ≤ idx.map) →
      ap_get_level_info tbl idx = none) ∧
    ((0 ≤ idx.ep ∧ idx.ep < (tbl.length : Int) ∧ 0 ≤ idx.map ∧
        idx.map < ((tbl.getD idx.ep.toNat []).length : Int)) →
      ap_get_level_info tbl idx
        = some ((tbl.getD idx.ep.toNat []).getD idx.map.toNat default)) := by
  refine ⟨?_, ?_, ?_, ?_⟩
  · intro h
    unfold ap_get_map_count
    rw [if_pos (by omega)]
  · intro h
    unfold ap_get_map_count
    rw [if_neg (by omega)]
  · intro h
    unfold ap_get_level_info
    by_cases h1 : idx.ep < 0 ∨ (tbl.length : Int) ≤ idx.ep
    · rw [if_pos h1]
    · rw [if_neg h1]
      rw [if_pos (by tauto)]
  · intro h
    unfold ap_get_level_info
    rw [if_neg (by omega), if_neg (by omega)]

/-- Concrete instantiation of `C10_catalog_accessors_total` on a one-episode,
one-level catalog. -/
theorem C10_catalog_accessors_total_witness :
    ap_get_map_count [[(default : ApLevelInfo)]] 5 = -1 ∧
    ap_get_map_count [[(default : ApLevelInfo)]] 1 = 1 ∧
    ap_get_level_info [[(default : ApLevelInfo)]] ⟨0, 3⟩ = none ∧
    ap_get_level_info [[(default : ApLevelInfo)]] ⟨0, 0⟩
      = some (default : ApLevelInfo) :=
  ⟨(C10_catalog_accessors_total [[default]] 5 ⟨0, 3⟩).1 (by norm_num),
   (C10_catalog_accessors_total [[default]] 1 ⟨0, 3⟩).2.1 (by norm_num),
   (C10_catalog_accessors_total [[default]] 1 ⟨0, 3⟩).2.2.1 (by norm_num),
   (C10_catalog_accessors_total [[default]] 1 ⟨0, 0⟩).2.2.2 (by norm_num)⟩

/-- The JSON values `save_state` writes and `load_state` reads (the
jsoncpp `Json::Value` interface restricted to what apstate.json uses):
integers, booleans, and null for absent members. -/
inductive JVal where
  | jnull
  | jint (n : Int)
  | jbool (b : Bool)
deriving Repr, DecidableEq

/-- `json_get_int` (apdoom.cpp lines 1348-1352): overwrite the default
only when `json.isInt()`.  jsoncpp's `isInt()` is true only for numeric
values — booleans and null are distinct JSON types and are skipped. -/
def json_get_int (v : JVal) (cur : Int) : Int :=
  match v with
  | .jint n => n
  | _ => cur

/-- `json_get_bool_or` (apdoom.cpp lines 1355-1359): `out |= json.asInt()`
when `json.isInt()`. -/
def json_get_bool_or (v : JVal) (cur : Int) : Int :=
  match v with
  | .jint n => Int.lor cur n
  | _ => cur

/-- `Json::Value::asInt64`, as used for `item_queue` and
`progressive_locations` entries: null coerces to 0, booleans to 0/1. -/
def asInt64 (v : JVal) : Int :=
  match v with
  | .jnull => 0
  | .jint n => n
  | .jbool b => if b then 1 else 0

/-- One level's record in apstate.json, as produced by `serialize_level`
(apdoom.cpp lines 1530-1555). -/
structure SaveLevel where
  completed : JVal
  keys0 : JVal
  keys1 : JVal
  keys2 : JVal
  check_count : JVal
  has_map : JVal
  unlocked : JVal
  special : JVal
  checks : List JVal
deriving Repr, DecidableEq

/-- An absent level record: every member reads as null. -/
def emptySaveLevel : SaveLevel :=
  { completed := .jnull, keys0 := .jnull, keys1 := .jnull, keys2 := .jnull,
    check_count := .jnull, has_map := .jnull, unlocked := .jnull,
    special := .jnull, checks := [] }

/-- The apstate.json document written by `save_state` (apdoom.cpp lines
1575-1671); the informational `version` string is omitted. -/
structure SaveFile where
  health : JVal
  armor_points : JVal
  armor_type : JVal
  ready_weapon : JVal
  kill_count : JVal
  item_count : JVal
  secret_count : JVal
  powers : List JVal
  weapon_owned : List JVal
  ammo : List JVal
  max_ammo : List JVal
  inventory : List (JVal × JVal)
  episodes_levels : List (List SaveLevel)
  item_queue : List JVal
  ep : JVal
  enabled_episodes : List JVal
  map : JVal
  progressive_locations : List JVal
  victory : JVal
deriving Repr, DecidableEq

/-- `serialize_level` (apdoom.cpp lines 1530-1555), taking the 0-based
episode/map pair: all level flags and the check counter as integers, and
the non-(-1) entries of the checks array in order. -/
def serialize_level (c : ApConfig) (s : GameState) (i j : Nat) : SaveLevel :=
  let L := s.level_states.getD (i * c.max_map_count + j) zeroLevel
  { completed := .jint L.completed,
    keys0 := .jint (L.keys.getD 0 0),
    keys1 := .jint (L.keys.getD 1 0),
    keys2 := .jint (L.keys.getD 2 0),
    check_count := .jint (L.check_count : Int),
    has_map := .jint L.has_map,
    unlocked := .jint L.unlocked,
    special := .jint L.special,
    checks := (((List.range AP_CHECK_MAX).map (fun k => L.checks.getD k 0)).filter
        (fun v => v != -1)).map JVal.jint }

/-- `save_state` (apdoom.cpp lines 1575-1671): player state, every level
in catalog order (never sparse), the remaining item queue, enabled
episodes (as booleans), current episode/map, the progressive-location set
(in ascending `std::set` order) and the victory flag.  Inventory slots of
type 9 (wings) are skipped. -/
def save_state (c : ApConfig) (s : GameState) : SaveFile :=
  { health := .jint s.player.health,
    armor_points := .jint s.player.armor_points,
    armor_type := .jint s.player.armor_type,
    ready_weapon := .jint s.player.ready_weapon,
    kill_count := .jint s.player.kill_count,
    item_count := .jint s.player.item_count,
    secret_count := .jint s.player.secret_count,
    powers := (List.range c.powerup_count).map
      (fun i => .jint (s.player.powers.getD i 0)),
    weapon_owned := (List.range c.weapon_count).map
      (fun i => .jint (s.player.weapon_owned.getD i 0)),
    ammo := (List.range c.ammo_count).map
      (fun i => .jint (s.player.ammo.getD i 0)),
    max_ammo := (List.range c.ammo_count).map
      (fun i => .jint (s.player.max_ammo.getD i 0)),
    inventory := (((List.range c.inventory_count).map
        (fun i => s.player.inventory.getD i (0, 0))).filter
        (fun p => p.1 != 9)).map (fun p => (JVal.jint p.1, JVal.jint p.2)),
    episodes_levels := (List.range c.map_counts.length).map
      (fun i => (List.range (c.map_counts.getD i 0)).map
        (fun j => serialize_level c s i j)),
    item_queue := s.ap_item_queue.map .jint,
    ep := .jint s.ep,
    enabled_episodes := (List.range c.map_counts.length).map
      (fun i => .jbool (!(s.episodes.getD i 0 == 0))),
    map := .jint s.map,
    progressive_locations := s.progressive_locations.map .jint,
    victory := .jint s.victory }

/-- An indexed C loop `for i < n: arr[i] = step i arr[i]` over an int
array modelled as a list; writes past the allocated length are dropped. -/
def load_array {α : Type} (dflt : α) (step : Nat → α → α) (n : Nat)
    (cur : List α) : List α :=
  (List.range n).foldl (fun acc i => acc.set i (step i (acc.getD i dflt))) cur

/-- The per-level restore of `load_state` (apdoom.cpp lines 1472-1494):
completion, keys, automap, unlock and special flags are OR-loaded; the
`check_count` and `checks` members are deliberately NOT restored (the
corresponding lines are commented out in the source — the server re-sends
checked locations on reconnect). -/
def load_one_level (sj : SaveLevel) (L : LevelState) : LevelState :=
  { L with
    completed := json_get_bool_or sj.completed L.completed,
    keys := ((L.keys.set 0 (json_get_bool_or sj.keys0 (L.keys.getD 0 0))).set 1
        (json_get_bool_or sj.keys1 (L.keys.getD 1 0))).set 2
        (json_get_bool_or sj.keys2 (L.keys.getD 2 0)),
    has_map := json_get_bool_or sj.has_map L.has_map,
    unlocked := json_get_bool_or sj.unlocked L.unlocked,
    special := json_get_bool_or sj.special L.special }

/-- The nested level-restore loops of `load_state`, visiting every
catalog `(episode, map)` pair in order and updating the flat
`level_states` slot `ep * max_map_count + map`. -/
def load_levels (c : ApConfig) (f : SaveFile) (ls : List LevelState) :
    List LevelState :=
  (catalog_levels c).foldl
    (fun acc p =>
      acc.set (p.1 * c.max_map_count + p.2)
        (load_one_level ((f.episodes_levels.getD p.1 []).getD p.2 emptySaveLevel)
          (acc.getD (p.1 * c.max_map_count + p.2) zeroLevel)))
    ls

/-- `std::set<int64_t>::insert` on a sorted duplicate-free list. -/
def set_insert (x : Int) : List Int → List Int
  | [] => [x]
  | y :: ys => if x < y then x :: y :: ys
               else if x == y then y :: ys
               else y :: set_insert x ys

/-- `load_state` (apdoom.cpp lines 1408-1527): best-effort field-by-field
restore onto the current session state.  Note what is NOT restored:
`check_count`/`checks` (commented out), `capacity_upgrades` (never
serialized), and `enabled_episodes` (saved as booleans but read back with
the integer-only `json_get_int`, so the values are skipped; the server's
slot data re-supplies episode selection on every connection). -/
def load_state (c : ApConfig) (f : SaveFile) (s : GameState) : GameState :=
  let p := s.player
  let p :=
    { p with
      health := json_get_int f.health p.health,
      armor_points := json_get_int f.armor_points p.armor_points,
      armor_type := json_get_int f.armor_type p.armor_type,
      ready_weapon := json_get_int f.ready_weapon p.ready_weapon,
      kill_count := json_get_int f.kill_count p.kill_count,
      item_count := json_get_int f.item_count p.item_count,
      secret_count := json_get_int f.secret_count p.secret_count,
      powers := (load_array 0
        (fun i cur => json_get_int (f.powers.getD i .jnull) cur)
        c.powerup_count p.powers),
      weapon_owned := (load_array 0
        (fun i cur => json_get_bool_or (f.weapon_owned.getD i .jnull) cur)
        c.weapon_count p.weapon_owned),
      ammo := (load_array 0
        (fun i cur => json_get_int (f.ammo.getD i .jnull) cur)
        c.ammo_count p.ammo),
      max_ammo := (load_array 0
        (fun i cur => json_get_int (f.max_ammo.getD i .jnull) cur)
        c.ammo_count p.max_ammo),
      inventory := (load_array (0, 0)
        (fun i cur =>
          (json_get_int (f.inventory.getD i (.jnull, .jnull)).1 cur.1,
           json_get_int (f.inventory.getD i (.jnull, .jnull)).2 cur.2))
        c.inventory_count p.inventory) }
  { s with
    player := p,
    level_states := load_levels c f s.level_states,
    ap_item_queue := s.ap_item_queue ++ f.item_queue.map asInt64,
    ep := json_get_int f.ep s.ep,
    episodes := (load_array 0
      (fun i cur => json_get_int (f.enabled_episodes.getD i .jnull) cur)
      c.map_counts.length s.episodes),
    map := json_get_int f.map s.map,
    progressive_locations := f.progressive_locations.foldl
      (fun acc v => set_insert (asInt64 v) acc) s.progressive_locations,
    victory := json_get_bool_or f.victory s.victory }

/-- A valid level slot's state right after `apdoom_init` (lines
1041-1044): all-zero fields with the checks array filled with -1. -/
def freshLevel : LevelState :=
  { zeroLevel with checks := List.replicate AP_CHECK_MAX (-1) }

/-- The fresh session state `load_state` runs against on a first connect:
`apdoom_init`'s zero-initialized arrays and defaults (lines 999-1053) —
health 100, pistol ready, fist and pistol owned, 50 bullets, every valid
level's checks array filled with -1.  `start` and `add` are the
configured max-ammo base and increment. -/
def fresh_state (c : ApConfig) (start add : List Int) : GameState :=
  { level_states :=
      ((catalog_levels c).foldl
        (fun acc p => acc.set (p.1 * c.max_map_count + p.2)
          { (acc.getD (p.1 * c.max_map_count + p.2) zeroLevel) with
              checks := List.replicate AP_CHECK_MAX (-1) })
        (List.replicate (c.map_counts.length * c.max_map_count) zeroLevel)),
    player :=
      { health := 100, armor_points := 0, armor_type := 0, ready_weapon := 1,
        kill_count := 0, item_count := 0, secret_count := 0,
        powers := List.replicate c.powerup_count 0,
        weapon_owned := ((List.replicate c.weapon_count 0).set 0 1).set 1 1,
        ammo := (List.replicate c.ammo_count 0).set 0 50,
        max_ammo := List.replicate c.ammo_count 0,
        capacity_upgrades := List.replicate c.ammo_count 0,
        inventory := List.replicate c.inventory_count (0, 0) },
    ep := 0, map := 0, episodes := List.replicate c.map_counts.length 0,
    victory := 0, max_ammo_start := start, max_ammo_add := add,
    ap_item_queue := [], progressive_locations := [],
    ap_notification_icons := [], give_trace := [] }

theorem int_zero_lor (n : Int) : Int.lor 0 n = n := by
  cases n with
  | ofNat m => simp [Int.lor]
  | negSucc m =>
      simp only [Int.lor]
      congr 1
      apply Nat.eq_of_testBit_eq
      intro k
      simp [Nat.testBit_ldiff]

theorem getD_set_same {α : Type} (l : List α) (n : Nat) (a d : α) :
    (l.set n a).getD n d = if n < l.length then a else l.getD n d := by
  by_cases h : n < l.length
  · simp [h, getD_set_self' l n a d h]
  · rw [List.set_eq_of_length_le (not_lt.mp h)]
    simp [h]

theorem getD_set_other {α : Type} (l : List α) (n m : Nat) (a d : α)
    (h : n ≠ m) : (l.set n a).getD m d = l.getD m d := by
  simp [List.getD_eq_getElem?_getD, List.getElem?_set_ne h]

theorem getD_replicate_self {α : Type} (n k : Nat) (a : α) :
    (List.replicate n a).getD k a = a := by
  rw [List.getD_eq_getElem?_getD]
  by_cases h : k < n
  · rw [List.getElem?_eq_getElem (by simpa using h)]
    simp [List.getElem_replicate]
  · rw [List.getElem?_eq_none (by simpa using not_lt.mp h)]
    rfl

theorem range_map_getD_gen {α : Type} (d : α) (n : Nat) (f : Nat → α)
    (j : Nat) (hj : j < n) : ((List.range n).map f).getD j d = f j := by
  rw [List.getD_eq_getElem?_getD, List.getElem?_map]
  simp [List.getElem?_range hj]

theorem eq_of_getD_ext {α : Type} (d : α) (l1 l2 : List α)
    (hlen : l1.length = l2.length)
    (h : ∀ j, j < l1.length → l1.getD j d = l2.getD j d) : l1 = l2 := by
  apply List.ext_getElem hlen
  intro i hi1 hi2
  have hh := h i hi1
  rw [List.getD_eq_getElem?_getD, List.getD_eq_getElem?_getD,
    List.getElem?_eq_getElem hi1, List.getElem?_eq_getElem hi2] at hh
  simpa using hh

theorem load_array_length {α : Type} (dflt : α) (step : Nat → α → α) :
    ∀ (n : Nat) (cur : List α),
      (load_array dflt step n cur).length = cur.length := by
  intro n
  induction n with
  | zero => intro cur; rfl
  | succ m ih =>
      intro cur
      unfold load_array at *
      rw [List.range_succ, List.foldl_append]
      simp only [List.foldl_cons, List.foldl_nil, List.length_set]
      exact ih cur

theorem load_array_getD {α : Type} (dflt : α) (step : Nat → α → α) :
    ∀ (n : Nat) (cur : List α) (j : Nat),
      (load_array dflt step n cur).getD j dflt
        = if j < n ∧ j < cur.length then step j (cur.getD j dflt)
          else cur.getD j dflt := by
  intro n
  induction n with
  | zero =>
      intro cur j
      simp [load_array]
  | succ m ih =>
      intro cur j
      have hlen : (load_array dflt step m cur).length = cur.length :=
        load_array_length dflt step m cur
      unfold load_array at *
      rw [List.range_succ, List.foldl_append]
      simp only [List.foldl_cons, List.foldl_nil]
      by_cases hj : j = m
      · subst hj
        rw [getD_set_same, hlen]
        by_cases hc : j < cur.length
        · rw [if_pos hc, ih cur j]
          rw [if_neg (by omega)]
          rw [if_pos (by omega)]
        · rw [if_neg hc, ih cur j]
          rw [if_neg (by omega), if_neg (by omega)]
      · rw [getD_set_other _ _ _ _ _ (Ne.symm hj), ih cur j]
        by_cases hc : j < m ∧ j < cur.length
        · rw [if_pos hc, if_pos (by omega)]
        · rw [if_neg hc, if_neg (by omega)]

/-- The flat `level_states` slot of a catalog `(episode, map)` pair, as in
`ap_get_level_state`. -/
def flat_idx (c : ApConfig) (p : Nat × Nat) : Nat :=
  p.1 * c.max_map_count + p.2

theorem mem_catalog_levels (c : ApConfig) (i j : Nat) :
    (i, j) ∈ catalog_levels c ↔
      i < c.map_counts.length ∧ j < c.map_counts.getD i 0 := by
  unfold catalog_levels
  simp [List.mem_flatMap, List.mem_map, List.mem_range]

theorem flat_lt_of_lt (i j E mmc : Nat) (hi : i < E) (hj : j < mmc) :
    i * mmc + j < E * mmc := by
  have h1 : i * mmc + j < (i + 1) * mmc := by
    have : (i + 1) * mmc = i * mmc + mmc := by ring
    omega
  have h2 : (i + 1) * mmc ≤ E * mmc := Nat.mul_le_mul_right mmc hi
  omega

theorem catalog_levels_pairwise_flat (c : ApConfig)
    (hwf : ∀ i, i < c.map_counts.length →
      c.map_counts.getD i 0 ≤ c.max_map_count) :
    (catalog_levels c).Pairwise
      (fun p q => flat_idx c p < flat_idx c q) := by
  unfold catalog_levels
  rw [List.flatMap_def]
  rw [List.pairwise_flatten]
  constructor
  · intro l hl
    rw [List.mem_map] at hl
    obtain ⟨ep, _, rfl⟩ := hl
    rw [List.pairwise_map]
    exact (List.pairwise_lt_range _).imp (by
      intro a b hab
      unfold flat_idx
      simp only []
      omega)
  · rw [List.pairwise_map]
    apply List.Pairwise.imp_of_mem ?_ (List.pairwise_lt_range _)
    intro ep1 ep2 h1 h2 hlt x hx y hy
    rw [List.mem_range] at h1 h2
    rw [List.mem_map] at hx hy
    obtain ⟨m1, hm1, rfl⟩ := hx
    obtain ⟨m2, hm2, rfl⟩ := hy
    rw [List.mem_range] at hm1 hm2
    unfold flat_idx
    simp only []
    have hc1 : m1 < c.max_map_count :=
      lt_of_lt_of_le hm1 (hwf ep1 h1)
    have hstep : ep1 * c.max_map_count + m1 < (ep1 + 1) * c.max_map_count := by
      have : (ep1 + 1) * c.max_map_count
          = ep1 * c.max_map_count + c.max_map_count := by ring
      omega
    have hmono : (ep1 + 1) * c.max_map_count ≤ ep2 * c.max_map_count :=
      Nat.mul_le_mul_right _ hlt
    omega

theorem foldl_set_length_pairs {α : Type} (d : α) (g : (Nat × Nat) → α → α)
    (flat : (Nat × Nat) → Nat) :
    ∀ (ps : List (Nat × Nat)) (ls : List α),
      (ps.foldl (fun acc p => acc.set (flat p) (g p (acc.getD (flat p) d)))
        ls).length = ls.length := by
  intro ps
  induction ps with
  | nil => intro ls; rfl
  | cons p rest ih =>
      intro ls
      rw [List.foldl_cons, ih]
      simp

theorem foldl_set_getD_not_mem {α : Type} (d : α) (g : (Nat × Nat) → α → α)
    (flat : (Nat × Nat) → Nat) :
    ∀ (ps : List (Nat × Nat)) (ls : List α) (k : Nat),
      (∀ p ∈ ps, flat p ≠ k) →
      (ps.foldl (fun acc p => acc.set (flat p) (g p (acc.getD (flat p) d)))
        ls).getD k d = ls.getD k d := by
  intro ps
  induction ps with
  | nil => intro ls k _; rfl
  | cons p rest ih =>
      intro ls k h
      rw [List.foldl_cons, ih _ k (fun q hq => h q (by simp [hq]))]
      exact getD_set_other _ _ _ _ _ (h p (by simp))

theorem foldl_set_getD_mem {α : Type} (d : α) (g : (Nat × Nat) → α → α)
    (flat : (Nat × Nat) → Nat) :
    ∀ (ps : List (Nat × Nat)) (ls : List α) (q : Nat × Nat),
      q ∈ ps → ps.Pairwise (fun p p' => flat p ≠ flat p') →
      flat q < ls.length →
      (ps.foldl (fun acc p => acc.set (flat p) (g p (acc.getD (flat p) d)))
        ls).getD (flat q) d = g q (ls.getD (flat q) d) := by
  intro ps
  induction ps with
  | nil => intro ls q hq; simp at hq
  | cons p rest ih =>
      intro ls q hq hpw hlen
      rw [List.foldl_cons]
      rcases List.mem_cons.mp hq with hq | hq
      · subst hq
        have hrest : ∀ p' ∈ rest, flat p' ≠ flat q := by
          intro p' hp'
          exact Ne.symm ((List.pairwise_cons.mp hpw).1 p' hp')
        rw [foldl_set_getD_not_mem d g flat rest _ _ hrest]
        rw [getD_set_same, if_pos hlen]
      · have hne : flat p ≠ flat q := (List.pairwise_cons.mp hpw).1 q hq
        rw [ih _ q hq (List.pairwise_cons.mp hpw).2 (by simpa using hlen)]
        rw [getD_set_other _ _ _ _ _ hne]

theorem set_insert_append (x : Int) :
    ∀ (acc : List Int), (∀ y ∈ acc, y < x) → set_insert x acc = acc ++ [x] := by
  intro acc
  induction acc with
  | nil => intro _; rfl
  | cons y ys ih =>
      intro h
      have hy : y < x := h y (by simp)
      rw [set_insert]
      rw [if_neg (by omega), if_neg (by simp [BEq.beq]; omega)]
      rw [ih (fun z hz => h z (by simp [hz]))]
      simp

theorem foldl_set_insert_append :
    ∀ (l acc : List Int), l.Pairwise (· < ·) →
      (∀ y ∈ acc, ∀ z ∈ l, y < z) →
      l.foldl (fun a v => set_insert v a) acc = acc ++ l := by
  intro l
  induction l with
  | nil => intro acc _ _; simp
  | cons z zs ih =>
      intro acc hpw hlt
      rw [List.foldl_cons]
      rw [set_insert_append z acc (fun y hy => hlt y hy z (by simp))]
      rw [ih (acc ++ [z]) (List.pairwise_cons.mp hpw).2 ?_]
      · simp
      · intro y hy w hw
        rcases List.mem_append.mp hy with hy | hy
        · exact hlt y hy w (by simp [hw])
        · have : y = z := by simpa using hy
          subst this
          exact (List.pairwise_cons.mp hpw).1 w hw

/-- A one-episode, one-level catalog used for the persistence
counterexample. -/
def c6Config : ApConfig :=
  { max_map_count := 1, map_counts := [1], ammo_count := 1, weapon_count := 2,
    powerup_count := 1, inventory_count := 0,
    item_type_table := [], keys_map := [], weapons_map := [],
    map_doom_type := 2026, sprites := [] }

/-- The single level of `c6Config` with location index 0 recorded. -/
def c6Level : LevelState :=
  { freshLevel with checks := freshLevel.checks.set 0 0, check_count := 1 }

/-- A session for `c6Config` in which location index 0 of the only level
has been recorded as checked. -/
def c6State : GameState :=
  { fresh_state c6Config [200] [200] with level_states := [c6Level] }

/-- C6 counterexample: `save_state` serializes the checked-location list
and counter, but `load_state` deliberately does not restore them (the
restoring lines are commented out in the source), so a save/load
round-trip into a fresh session does NOT reproduce them: the saved state
has one checked location, the loaded state none. -/
theorem C6_roundtrip_counterexample :
    (c6State.level_states.getD 0 zeroLevel).check_count = 1 ∧
    ((load_state c6Config (save_state c6Config c6State)
        (fresh_state c6Config [200] [200])).level_states.getD 0
          zeroLevel).check_count = 0 := by
  exact ⟨rfl, rfl⟩

theorem load_int_array_roundtrip (src : List Int) (n : Nat) (cur : List Int)
    (hcur : cur.length = n) (hsrc : src.length = n) :
    load_array 0 (fun i c' => json_get_int
        (((List.range n).map (fun k => JVal.jint (src.getD k 0))).getD i
          JVal.jnull) c') n cur = src := by
  apply eq_of_getD_ext 0
  · rw [load_array_length]; omega
  · intro j hj
    rw [load_array_length] at hj
    rw [load_array_getD]
    have hjn : j < n := by omega
    rw [if_pos ⟨hjn, by omega⟩]
    rw [range_map_getD_gen JVal.jnull n _ j hjn]
    rfl

theorem load_weapons_roundtrip (src : List Int) (n : Nat)
    (hsrc : src.length = n) (hn : 2 ≤ n)
    (h0 : src.getD 0 0 = 1) (h1 : src.getD 1 0 = 1) :
    load_array 0 (fun i c' => json_get_bool_or
        (((List.range n).map (fun k => JVal.jint (src.getD k 0))).getD i
          JVal.jnull) c') n (((List.replicate n 0).set 0 1).set 1 1)
      = src := by
  apply eq_of_getD_ext 0
  · rw [load_array_length]; simp; omega
  · intro j hj
    rw [load_array_length] at hj
    simp only [List.length_set, List.length_replicate] at hj
    rw [load_array_getD]
    rw [if_pos ⟨by omega, by simp; omega⟩]
    rw [range_map_getD_gen JVal.jnull n _ j (by omega)]
    show Int.lor ((((List.replicate n 0).set 0 1).set 1 1).getD j 0)
        (src.getD j 0) = src.getD j 0
    by_cases hj1 : j = 1
    · subst hj1
      rw [getD_set_same, if_pos (by simp; omega), h1]
      decide
    · rw [getD_set_other _ _ _ _ _ (Ne.symm hj1)]
      by_cases hj0 : j = 0
      · subst hj0
        rw [getD_set_same, if_pos (by simp; omega), h0]
        decide
      · rw [getD_set_other _ _ _ _ _ (Ne.symm hj0)]
        rw [getD_replicate_self]
        exact int_zero_lor _

theorem load_episodes_skipped (vals : List Int) (n : Nat) :
    load_array 0 (fun i cur => json_get_int
        (((List.range n).map
          (fun k => JVal.jbool (!(vals.getD k 0 == 0)))).getD i
          JVal.jnull) cur) n (List.replicate n 0)
      = List.replicate n 0 := by
  apply eq_of_getD_ext 0
  · rw [load_array_length]
  · intro j hj
    rw [load_array_length] at hj
    simp only [List.length_replicate] at hj
    rw [load_array_getD]
    rw [if_pos ⟨hj, by simpa using hj⟩]
    rw [range_map_getD_gen JVal.jnull n _ j hj]
    rfl

theorem range_map_getD_self {α : Type} (d : α) (src : List α) :
    (List.range src.length).map (fun k => src.getD k d) = src := by
  apply List.ext_getElem (by simp)
  intro i hi1 hi2
  simp only [List.getElem_map, List.getElem_range]
  rw [List.getD_eq_getElem?_getD, List.getElem?_eq_getElem hi2]
  rfl

theorem load_inventory_roundtrip_general (src : List (Int × Int)) (n : Nat)
    (hsrc : src.length = n) :
    load_array (0, 0) (fun i cur =>
      (json_get_int (((((List.range n).map
          (fun k => src.getD k (0, 0))).filter (fun p => p.1 != 9)).map
          (fun p => (JVal.jint p.1, JVal.jint p.2))).getD i
            (JVal.jnull, JVal.jnull)).1 cur.1,
       json_get_int (((((List.range n).map
          (fun k => src.getD k (0, 0))).filter (fun p => p.1 != 9)).map
          (fun p => (JVal.jint p.1, JVal.jint p.2))).getD i
            (JVal.jnull, JVal.jnull)).2 cur.2))
      n (List.replicate n (0, 0))
      = src.filter (fun p => p.1 != 9)
        ++ List.replicate (n - (src.filter (fun p => p.1 != 9)).length)
            (0, 0) := by
  subst hsrc
  rw [range_map_getD_self]
  have hm : (src.filter (fun p => p.1 != 9)).length ≤ src.length :=
    List.length_filter_le _ _
  apply eq_of_getD_ext (0, 0)
  · rw [load_array_length]
    simp
    omega
  · intro j hj
    rw [load_array_length] at hj
    simp only [List.length_replicate] at hj
    rw [load_array_getD]
    rw [if_pos ⟨hj, by simpa using hj⟩]
    rw [getD_replicate_self]
    by_cases hjm : j < (src.filter (fun p => p.1 != 9)).length
    · have hG : (((src.filter (fun p => p.1 != 9)).map
          (fun p => (JVal.jint p.1, JVal.jint p.2))).getD j
            (JVal.jnull, JVal.jnull))
          = (JVal.jint ((src.filter (fun p => p.1 != 9)).getD j (0, 0)).1,
             JVal.jint ((src.filter (fun p => p.1 != 9)).getD j (0, 0)).2) := by
        rw [List.getD_eq_getElem?_getD, List.getElem?_map,
          List.getElem?_eq_getElem hjm]
        rw [List.getD_eq_getElem?_getD, List.getElem?_eq_getElem hjm]
        rfl
      rw [hG]
      have hR : ((src.filter (fun p : Int × Int => p.1 != 9))
          ++ List.replicate
              (src.length - (src.filter (fun p : Int × Int => p.1 != 9)).length)
              ((0, 0) : Int × Int)).getD j ((0, 0) : Int × Int)
          = (src.filter (fun p : Int × Int => p.1 != 9)).getD j
              ((0, 0) : Int × Int) := by
        rw [List.getD_eq_getElem?_getD, List.getElem?_append, if_pos hjm,
          ← List.getD_eq_getElem?_getD]
      rw [hR]
      simp [json_get_int]
    · have hG : (((src.filter (fun p => p.1 != 9)).map
          (fun p => (JVal.jint p.1, JVal.jint p.2))).getD j
            (JVal.jnull, JVal.jnull)) = (JVal.jnull, JVal.jnull) := by
        rw [List.getD_eq_getElem?_getD,
          List.getElem?_eq_none (by simpa using not_lt.mp hjm)]
        rfl
      rw [hG]
      have hR : ((src.filter (fun p : Int × Int => p.1 != 9))
          ++ List.replicate
              (src.length - (src.filter (fun p : Int × Int => p.1 != 9)).length)
              ((0, 0) : Int × Int)).getD j ((0, 0) : Int × Int)
          = ((0, 0) : Int × Int) := by
        rw [List.getD_eq_getElem?_getD, List.getElem?_append,
          if_neg (by omega), ← List.getD_eq_getElem?_getD]
        exact getD_replicate_self _ _ _
      rw [hR]
      rfl

theorem fresh_state_level (c : ApConfig) (start add : List Int) (i j : Nat)
    (hwfc : ∀ i', i' < c.map_counts.length →
      c.map_counts.getD i' 0 ≤ c.max_map_count)
    (hi : i < c.map_counts.length) (hj : j < c.map_counts.getD i 0) :
    (fresh_state c start add).level_states.getD (i * c.max_map_count + j)
      zeroLevel = freshLevel := by
  have hq : (i, j) ∈ catalog_levels c := (mem_catalog_levels c i j).mpr ⟨hi, hj⟩
  have hpw := (catalog_levels_pairwise_flat c hwfc).imp
    (fun h => Nat.ne_of_lt h)
  have hlen : flat_idx c (i, j) <
      (List.replicate (c.map_counts.length * c.max_map_count)
        zeroLevel).length := by
    simp only [List.length_replicate, flat_idx]
    exact flat_lt_of_lt i j _ _ hi (lt_of_lt_of_le hj (hwfc i hi))
  have hfold := foldl_set_getD_mem zeroLevel
    (fun _ L => { L with checks := List.replicate AP_CHECK_MAX (-1) })
    (flat_idx c) (catalog_levels c)
    (List.replicate (c.map_counts.length * c.max_map_count) zeroLevel)
    (i, j) hq hpw hlen
  have h2 : ({ ((List.replicate (c.map_counts.length * c.max_map_count)
        zeroLevel).getD (flat_idx c (i, j)) zeroLevel) with
      checks := List.replicate AP_CHECK_MAX (-1) } : LevelState)
      = freshLevel := by
    rw [getD_replicate_self]
    rfl
  exact hfold.trans h2

theorem load_levels_getD (c : ApConfig) (f : SaveFile) (ls : List LevelState)
    (i j : Nat)
    (hwfc : ∀ i', i' < c.map_counts.length →
      c.map_counts.getD i' 0 ≤ c.max_map_count)
    (hi : i < c.map_counts.length) (hj : j < c.map_counts.getD i 0)
    (hlen : i * c.max_map_count + j < ls.length) :
    (load_levels c f ls).getD (i * c.max_map_count + j) zeroLevel
      = load_one_level
          ((f.episodes_levels.getD i []).getD j emptySaveLevel)
          (ls.getD (i * c.max_map_count + j) zeroLevel) := by
  have hq : (i, j) ∈ catalog_levels c := (mem_catalog_levels c i j).mpr ⟨hi, hj⟩
  have hpw := (catalog_levels_pairwise_flat c hwfc).imp
    (fun h => Nat.ne_of_lt h)
  exact foldl_set_getD_mem zeroLevel
    (fun p L => load_one_level
      ((f.episodes_levels.getD p.1 []).getD p.2 emptySaveLevel) L)
    (flat_idx c) (catalog_levels c) ls (i, j) hq hpw hlen

theorem save_levels_getD (c : ApConfig) (s : GameState) (i j : Nat)
    (hi : i < c.map_counts.length) (hj : j < c.map_counts.getD i 0) :
    ((save_state c s).episodes_levels.getD i []).getD j emptySaveLevel
      = serialize_level c s i j := by
  have h1 : (save_state c s).episodes_levels
      = (List.range c.map_counts.length).map
          (fun i' => (List.range (c.map_counts.getD i' 0)).map
            (fun j' => serialize_level c s i' j')) := rfl
  rw [h1, range_map_getD_gen [] _ _ i hi,
    range_map_getD_gen emptySaveLevel _ _ j hj]

theorem load_one_level_of_serialize (c : ApConfig) (s : GameState) (i j : Nat)
    (hkeys : (s.level_states.getD (i * c.max_map_count + j)
      zeroLevel).keys.length = 3) :
    load_one_level (serialize_level c s i j) freshLevel
      = { (s.level_states.getD (i * c.max_map_count + j) zeroLevel) with
          check_count := 0, checks := List.replicate AP_CHECK_MAX (-1),
          flipped := 0, music := 0 } := by
  obtain ⟨a, b, d, hab⟩ := List.length_eq_three.mp hkeys
  simp only [load_one_level, serialize_level, json_get_bool_or]
  rw [hab]
  simp [freshLevel, zeroLevel, int_zero_lor]

theorem fresh_state_levels_length (c : ApConfig) (start add : List Int) :
    (fresh_state c start add).level_states.length
      = c.map_counts.length * c.max_map_count := by
  exact (foldl_set_length_pairs zeroLevel
    (fun _ L => { L with checks := List.replicate AP_CHECK_MAX (-1) })
    (flat_idx c) (catalog_levels c)
    (List.replicate (c.map_counts.length * c.max_map_count) zeroLevel)).trans
    (by simp)

/-- C6 amended: a save/load round-trip into a fresh session reproduces the
player state (scalar stats, power-up timers, weapon-owned flags, ammo —
and max ammo, which is copied verbatim from the file rather than
recomputed), every level's completion/key/automap/unlock/special flags,
the pending item queue, the current episode/map pointers, the
progressive-location set and the victory flag.  The inventory is
reproduced except for type-9 (wings) slots, which `save_state` skips and
which the index-based loader therefore cannot put back: the loaded
inventory is the wings-free list compacted to the front, padded with
empty slots.  The round-trip does NOT restore the checked-location lists
and counters (serialized but deliberately not loaded — the server
re-sends checked locations on reconnect), the capacity-upgrade counters
(never serialized; re-derived as the server re-sends items), or the
enabled-episode flags (saved as booleans but read back with the
integer-only loader; re-supplied by server slot data), and the flip/music
derivations are not persisted at all. -/
theorem C6_roundtrip_amended (c : ApConfig) (s : GameState)
    (start add : List Int)
    (hwfc : ∀ i', i' < c.map_counts.length →
      c.map_counts.getD i' 0 ≤ c.max_map_count)
    (hls : s.level_states.length = c.map_counts.length * c.max_map_count)
    (hkeys : ∀ L ∈ s.level_states, L.keys.length = 3)
    (hpow : s.player.powers.length = c.powerup_count)
    (hweap : s.player.weapon_owned.length = c.weapon_count)
    (hwn : 2 ≤ c.weapon_count)
    (hw0 : s.player.weapon_owned.getD 0 0 = 1)
    (hw1 : s.player.weapon_owned.getD 1 0 = 1)
    (hammo : s.player.ammo.length = c.ammo_count)
    (hmax : s.player.max_ammo.length = c.ammo_count)
    (hinv : s.player.inventory.length = c.inventory_count)
    (hprog : s.progressive_locations.Pairwise (· < ·)) :
    (load_state c (save_state c s) (fresh_state c start add)).player
      = { s.player with
          capacity_upgrades := List.replicate c.ammo_count 0,
          inventory := (s.player.inventory.filter (fun p => p.1 != 9)
            ++ List.replicate (c.inventory_count
              - (s.player.inventory.filter (fun p => p.1 != 9)).length)
              (0, 0)) } ∧
    (∀ i j, i < c.map_counts.length → j < c.map_counts.getD i 0 →
      (load_state c (save_state c s)
          (fresh_state c start add)).level_states.getD
        (i * c.max_map_count + j) zeroLevel
        = { (s.level_states.getD (i * c.max_map_count + j) zeroLevel) with
            check_count := 0, checks := List.replicate AP_CHECK_MAX (-1),
            flipped := 0, music := 0 }) ∧
    (load_state c (save_state c s) (fresh_state c start add)).ap_item_queue
      = s.ap_item_queue ∧
    (load_state c (save_state c s) (fresh_state c start add)).ep = s.ep ∧
    (load_state c (save_state c s) (fresh_state c start add)).map = s.map ∧
    (load_state c (save_state c s) (fresh_state c start add)).episodes
      = List.replicate c.map_counts.length 0 ∧
    (load_state c (save_state c s)
        (fresh_state c start add)).progressive_locations
      = s.progressive_locations ∧
    (load_state c (save_state c s) (fresh_state c start add)).victory
      = s.victory := by
  refine ⟨?_, ?_, ?_, rfl, rfl, ?_, ?_, ?_⟩
  · -- player state round-trips, except capacity upgrades reset to zero
    have hpowers : (load_state c (save_state c s)
        (fresh_state c start add)).player.powers = s.player.powers :=
      load_int_array_roundtrip s.player.powers c.powerup_count
        (List.replicate c.powerup_count 0) (by simp) hpow
    have hweapons : (load_state c (save_state c s)
        (fresh_state c start add)).player.weapon_owned
        = s.player.weapon_owned :=
      load_weapons_roundtrip s.player.weapon_owned c.weapon_count
        hweap hwn hw0 hw1
    have hammo' : (load_state c (save_state c s)
        (fresh_state c start add)).player.ammo = s.player.ammo :=
      load_int_array_roundtrip s.player.ammo c.ammo_count
        ((List.replicate c.ammo_count 0).set 0 50) (by simp) hammo
    have hmax' : (load_state c (save_state c s)
        (fresh_state c start add)).player.max_ammo = s.player.max_ammo :=
      load_int_array_roundtrip s.player.max_ammo c.ammo_count
        (List.replicate c.ammo_count 0) (by simp) hmax
    have hinv' : (load_state c (save_state c s)
        (fresh_state c start add)).player.inventory
        = (s.player.inventory.filter (fun p => p.1 != 9)
            ++ List.replicate (c.inventory_count
              - (s.player.inventory.filter (fun p => p.1 != 9)).length)
              (0, 0)) :=
      load_inventory_roundtrip_general s.player.inventory c.inventory_count
        hinv
    have heta : (load_state c (save_state c s)
        (fresh_state c start add)).player
        = ⟨(load_state c (save_state c s)
              (fresh_state c start add)).player.health,
           (load_state c (save_state c s)
              (fresh_state c start add)).player.armor_points,
           (load_state c (save_state c s)
              (fresh_state c start add)).player.armor_type,
           (load_state c (save_state c s)
              (fresh_state c start add)).player.ready_weapon,
           (load_state c (save_state c s)
              (fresh_state c start add)).player.kill_count,
           (load_state c (save_state c s)
              (fresh_state c start add)).player.item_count,
           (load_state c (save_state c s)
              (fresh_state c start add)).player.secret_count,
           (load_state c (save_state c s)
              (fresh_state c start add)).player.powers,
           (load_state c (save_state c s)
              (fresh_state c start add)).player.weapon_owned,
           (load_state c (save_state c s)
              (fresh_state c start add)).player.ammo,
           (load_state c (save_state c s)
              (fresh_state c start add)).player.max_ammo,
           (load_state c (save_state c s)
              (fresh_state c start add)).player.capacity_upgrades,
           (load_state c (save_state c s)
              (fresh_state c start add)).player.inventory⟩ := rfl
    rw [heta, hpowers, hweapons, hammo', hmax', hinv']
    rfl
  · -- levels: flags round-trip, checks and counters reset
    intro i j hi hj
    have hjm : j < c.max_map_count := lt_of_lt_of_le hj (hwfc i hi)
    have hflat : i * c.max_map_count + j < s.level_states.length := by
      rw [hls]
      exact flat_lt_of_lt i j _ _ hi hjm
    have hfreshlen : i * c.max_map_count + j
        < (fresh_state c start add).level_states.length := by
      rw [fresh_state_levels_length]
      exact flat_lt_of_lt i j _ _ hi hjm
    have hmem : s.level_states.getD (i * c.max_map_count + j) zeroLevel
        ∈ s.level_states := by
      rw [List.getD_eq_getElem?_getD, List.getElem?_eq_getElem hflat]
      exact List.getElem_mem hflat
    have step1 : (load_state c (save_state c s)
        (fresh_state c start add)).level_states.getD
          (i * c.max_map_count + j) zeroLevel
        = load_one_level
            (((save_state c s).episodes_levels.getD i []).getD j
              emptySaveLevel)
            ((fresh_state c start add).level_states.getD
              (i * c.max_map_count + j) zeroLevel) :=
      load_levels_getD c (save_state c s)
        (fresh_state c start add).level_states i j hwfc hi hj hfreshlen
    rw [step1, save_levels_getD c s i j hi hj,
      fresh_state_level c start add i j hwfc hi hj]
    exact load_one_level_of_serialize c s i j (hkeys _ hmem)
  · -- pending item queue round-trips
    show ([] : List Int)
        ++ (s.ap_item_queue.map JVal.jint).map asInt64 = s.ap_item_queue
    rw [List.map_map]
    have hcomp : asInt64 ∘ JVal.jint = id := funext (fun v => rfl)
    rw [hcomp, List.map_id]
    rfl
  · -- enabled episodes are NOT restored: the loader skips boolean values
    exact load_episodes_skipped s.episodes c.map_counts.length
  · -- the progressive-location set round-trips
    show (s.progressive_locations.map JVal.jint).foldl
        (fun acc v => set_insert (asInt64 v) acc) ([] : List Int)
        = s.progressive_locations
    rw [List.foldl_map]
    exact (foldl_set_insert_append s.progressive_locations [] hprog
      (by simp)).trans (by simp)
  · -- the victory flag round-trips
    show Int.lor 0 s.victory = s.victory
    exact int_zero_lor s.victory

/-- `c6Config` with a two-slot heretic-style inventory. -/
def c6bConfig : ApConfig := { c6Config with inventory_count := 2 }

/-- A player for `c6bConfig` holding a wings slot (type 9) followed by a
regular slot. -/
def c6bPlayer : PlayerState :=
  { (fresh_state c6bConfig [200] [200]).player with
      inventory := [(9, 1), (3, 2)] }

/-- A session for `c6bConfig` whose inventory holds wings. -/
def c6bState : GameState :=
  { fresh_state c6bConfig [200] [200] with
      level_states := [freshLevel], player := c6bPlayer }

/-- Concrete instantiation of `C6_roundtrip_amended`: on `c6Config` the
victory flag round-trips and the checked-location counter is reset; on
`c6bConfig` a wings-holding inventory `[(9,1),(3,2)]` round-trips to the
compacted wings-free `[(3,2),(0,0)]`. -/
theorem C6_roundtrip_amended_witness :
    (load_state c6Config (save_state c6Config c6State)
        (fresh_state c6Config [200] [200])).victory = c6State.victory ∧
    (load_state c6Config (save_state c6Config c6State)
        (fresh_state c6Config [200] [200])).level_states.getD 0 zeroLevel
      = { (c6State.level_states.getD 0 zeroLevel) with
          check_count := 0, checks := List.replicate AP_CHECK_MAX (-1),
          flipped := 0, music := 0 } ∧
    (load_state c6bConfig (save_state c6bConfig c6bState)
        (fresh_state c6bConfig [200] [200])).player.inventory
      = [(3, 2), (0, 0)] := by
  have h := C6_roundtrip_amended c6Config c6State [200] [200]
    (by intro i hi; simp [c6Config] at hi; subst hi; decide)
    (by decide)
    (by intro L hL
        have hL' : L ∈ [c6Level] := hL
        rw [List.mem_singleton] at hL'
        subst hL'
        rfl)
    rfl rfl (by decide) rfl rfl rfl rfl rfl
    List.Pairwise.nil
  have hb := C6_roundtrip_amended c6bConfig c6bState [200] [200]
    (by intro i hi; simp [c6bConfig, c6Config] at hi; subst hi; decide)
    (by decide)
    (by intro L hL
        have hL' : L ∈ [freshLevel] := hL
        rw [List.mem_singleton] at hL'
        subst hL'
        rfl)
    rfl rfl (by decide) rfl rfl rfl rfl rfl
    List.Pairwise.nil
  refine ⟨h.2.2.2.2.2.2.2, h.2.1 0 0 (by decide) (by decide), ?_⟩
  exact (congrArg PlayerState.inventory hb.1).trans (by decide)
